import Mathlib

/-!
Shallow embedding of `src/ecotwinclient.py` (class `EcoTwinAPIClient`).

Pure data is translated directly; the stateful parts (the Token Manager's
cached token record) are explicit state passing; network effects are
modelled by passing in the response the remote endpoint would give and
recording the requests the client issues.  Python exceptions become
`Except` values.  Python `//` on `int` is floor division, i.e. `Int.fdiv`.
-/

namespace EcoTwin

/-- The exceptions the client can raise: `requests.HTTPError` from
`raise_for_status`, `ValueError` from forecast validation,
`ZeroDivisionError` from `86400 // 0`, and the `TypeError` Python would
raise on subscripting `None`. -/
inductive ClientError where
  | httpError (status : Nat)
  | valueError (msg : String)
  | zeroDivisionError
  | typeError
deriving Repr, DecidableEq

/-- A token record: `{access_token, expires_at}` (epoch seconds). -/
structure TokenRecord where
  access_token : String
  expires_at : Int
deriving Repr, DecidableEq

/-- Modelled from the spec: the external Token Manager collaborator
(`tokenmanager.SecureTokenManager`, not under `src/`) caches an access
token with an expiry timestamp and exposes `get_token` / `store_token`.
Its state is the cached token record, absent or present; `get_token`
returns it and `store_token` replaces it. -/
structure ClientState where
  stored_token : Option TokenRecord
deriving Repr, DecidableEq

/-- The identity endpoint's response to the client-credentials POST:
an HTTP status and the parsed JSON body's `access_token` and optional
`expires_in` fields. -/
structure TokenResponse where
  status : Nat
  access_token : String
  expires_in : Option Int
deriving Repr, DecidableEq

/-- The environment a call runs in: the current time (`time.time()` /
`datetime.now(timezone.utc).timestamp()`) and the response the identity
endpoint would give if contacted. -/
structure Env where
  now : Int
  identityResponse : TokenResponse
deriving Repr, DecidableEq

/-- `requests.Response.raise_for_status`: raises `HTTPError` exactly for
client errors (4xx) and server errors (5xx); other statuses return
normally. -/
def raise_for_status (status : Nat) : Except ClientError Unit :=
  if 400 ≤ status ∧ status < 600 then .error (.httpError status) else .ok ()

/-- `_get_access_token` (src/ecotwinclient.py:29-66).  Returns the result
(the access token or the propagated exception), the new Token Manager
state, and the number of network calls made to the identity endpoint. -/
def get_access_token (env : Env) (s : ClientState) :
    Except ClientError String × ClientState × Nat :=
  match s.stored_token with
  | some token_data => (.ok token_data.access_token, s, 0)
  | none =>
    match raise_for_status env.identityResponse.status with
    | .error e => (.error e, s, 1)
    | .ok _ =>
      let expires_in : Int := env.identityResponse.expires_in.getD 3600
      let record : TokenRecord :=
        ⟨env.identityResponse.access_token, env.now + expires_in⟩
      (.ok record.access_token, ⟨some record⟩, 1)

/-- `_ensure_valid_token` (src/ecotwinclient.py:68-74).  Checks only the
presence of a cached record, never its `expires_at`; on a cache miss it
calls `_get_access_token` and re-reads the cache. -/
def ensure_valid_token (env : Env) (s : ClientState) :
    Except ClientError String × ClientState × Nat :=
  match s.stored_token with
  | some token_data => (.ok token_data.access_token, s, 0)
  | none =>
    match get_access_token env s with
    | (.error e, s2, n) => (.error e, s2, n)
    | (.ok _, s2, n) =>
      match s2.stored_token with
      | some token_data => (.ok token_data.access_token, s2, n)
      | none => (.error .typeError, s2, n)

/-- Forecast header: `{projectId, interval, start_t}`. -/
structure ForecastHeader where
  projectId : String
  interval : Int
  start_t : Int
deriving Repr, DecidableEq

/-- Forecast timeseries: channel mappings `y` and `n`, each an
insertion-ordered mapping from VirtualIO name to value sequence. -/
structure Timeseries where
  y : List (String × List Rat)
  n : List (String × List Rat)
deriving Repr, DecidableEq

/-- An ECO Forecast object. -/
structure Forecast where
  header : ForecastHeader
  timeseries : Timeseries
deriving Repr, DecidableEq

/-- The validation loop of `create_eco_forecast`
(src/ecotwinclient.py:92-94): raise `ValueError` at the first channel
whose value list is shorter than `min_length`. -/
def validate_channels (min_length : Int) :
    List (String × List Rat) → Except ClientError Unit
  | [] => .ok ()
  | (io_name, values) :: rest =>
    if (values.length : Int) < min_length then
      .error (.valueError ("VirtualIO " ++ io_name ++ " must have at least "
        ++ toString min_length ++ " values"))
    else validate_channels min_length rest

/-- `create_eco_forecast` (src/ecotwinclient.py:76-108).  `now` is the
current UTC epoch time, `min_length = 86400 // interval` with Python
floor division (`Int.fdiv`), raising `ZeroDivisionError` for
`interval = 0`. -/
def create_eco_forecast (now : Int) (project_id : String)
    (virtual_io_values : List (String × List Rat)) (interval : Int) :
    Except ClientError Forecast :=
  if interval = 0 then .error .zeroDivisionError
  else
    let min_length := Int.fdiv 86400 interval
    match validate_channels min_length virtual_io_values with
    | .error e => .error e
    | .ok _ =>
      .ok ⟨⟨project_id, interval, now⟩, ⟨virtual_io_values, []⟩⟩

/-- An HTTP request the client issues to the API host. -/
structure HttpRequest where
  method : String
  url : String
  authorization : Option String
  contentType : Option String
deriving Repr, DecidableEq

/-- The remote API's response: an HTTP status and the parsed JSON body
(kept abstract as a string). -/
structure ApiResponse where
  status : Nat
  jsonBody : String
deriving Repr, DecidableEq

/-- The outcome of one client operation: its result, the new Token
Manager state, the number of identity-endpoint calls, and the requests
issued to the API host. -/
structure CallResult (α : Type) where
  result : Except ClientError α
  state : ClientState
  identityCalls : Nat
  apiRequests : List HttpRequest
deriving Repr

/-- `put_forecast` (src/ecotwinclient.py:110-135).  `apiResp` is the
response the forecast endpoint would give to the PUT. -/
def put_forecast (env : Env) (s : ClientState) (eco_twin_id : String)
    (_forecast : Forecast) (check : Bool) (apiResp : ApiResponse) :
    CallResult ApiResponse :=
  match ensure_valid_token env s with
  | (.error e, s2, n) => ⟨.error e, s2, n, []⟩
  | (.ok access_token, s2, n) =>
    let url := "https://energyoptimizer.azure-api.net/eco/v2/twins/"
      ++ eco_twin_id ++ "/forecast/external"
    let url := if check then url ++ "?check" else url
    let req : HttpRequest :=
      ⟨"PUT", url, some ("Bearer " ++ access_token), some "application/json"⟩
    match raise_for_status apiResp.status with
    | .error e => ⟨.error e, s2, n, [req]⟩
    | .ok _ => ⟨.ok apiResp, s2, n, [req]⟩

/-- `get_twin_status` (src/ecotwinclient.py:137-156): on success returns
the parsed JSON body of the response. -/
def get_twin_status (env : Env) (s : ClientState) (eco_twin_id : String)
    (apiResp : ApiResponse) : CallResult String :=
  match ensure_valid_token env s with
  | (.error e, s2, n) => ⟨.error e, s2, n, []⟩
  | (.ok access_token, s2, n) =>
    let url := "https://energyoptimizer.azure-api.net/eco/v2/twins/"
      ++ eco_twin_id ++ "/status"
    let req : HttpRequest := ⟨"GET", url, some ("Bearer " ++ access_token), none⟩
    match raise_for_status apiResp.status with
    | .error e => ⟨.error e, s2, n, [req]⟩
    | .ok _ => ⟨.ok apiResp.jsonBody, s2, n, [req]⟩

/-- `get_all_twins_status` (src/ecotwinclient.py:158-174). -/
def get_all_twins_status (env : Env) (s : ClientState)
    (apiResp : ApiResponse) : CallResult String :=
  match ensure_valid_token env s with
  | (.error e, s2, n) => ⟨.error e, s2, n, []⟩
  | (.ok access_token, s2, n) =>
    let url := "https://energyoptimizer.azure-api.net/eco/v2/status"
    let req : HttpRequest := ⟨"GET", url, some ("Bearer " ++ access_token), none⟩
    match raise_for_status apiResp.status with
    | .error e => ⟨.error e, s2, n, [req]⟩
    | .ok _ => ⟨.ok apiResp.jsonBody, s2, n, [req]⟩

end EcoTwin

namespace EcoTwin

/-- The validation loop succeeds exactly when every channel's value list
reaches the minimum length. -/
theorem validate_channels_ok_iff (m : Int) (l : List (String × List Rat)) :
    validate_channels m l = .ok () ↔ ∀ p ∈ l, m ≤ (p.2.length : Int) := by
  induction l with
  | nil => simp [validate_channels]
  | cons hd tl ih =>
    obtain ⟨io_name, values⟩ := hd
    by_cases h : (values.length : Int) < m
    · simp only [validate_channels, if_pos h]
      constructor
      · intro hc; cases hc
      · intro hall
        exact absurd (hall ⟨io_name, values⟩ (List.mem_cons_self _ _)) (by simpa using h)
    · simp only [validate_channels, if_neg h, ih]
      constructor
      · intro hall p hp
        rcases List.mem_cons.mp hp with rfl | hp
        · exact le_of_not_lt h
        · exact hall p hp
      · intro hall p hp
        exact hall p (List.mem_cons_of_mem _ hp)

/-- The validation loop raises a ValueError exactly when some channel's
value list is below the minimum length. -/
theorem validate_channels_error_iff (m : Int) (l : List (String × List Rat)) :
    (∃ msg, validate_channels m l = .error (.valueError msg)) ↔
      ∃ p ∈ l, (p.2.length : Int) < m := by
  induction l with
  | nil => simp [validate_channels]
  | cons hd tl ih =>
    obtain ⟨io_name, values⟩ := hd
    by_cases h : (values.length : Int) < m
    · simp only [validate_channels, if_pos h]
      constructor
      · intro _; exact ⟨⟨io_name, values⟩, List.mem_cons_self _ _, h⟩
      · intro _; exact ⟨_, rfl⟩
    · simp only [validate_channels, if_neg h, ih]
      constructor
      · intro ⟨p, hp, hlt⟩; exact ⟨p, List.mem_cons_of_mem _ hp, hlt⟩
      · intro ⟨p, hp, hlt⟩
        rcases List.mem_cons.mp hp with rfl | hp
        · exact absurd hlt h
        · exact ⟨p, hp, hlt⟩

/-- For a nonzero interval, `create_eco_forecast` returns the forecast
built from its arguments exactly when every channel reaches the minimum
length `86400 // interval`. -/
theorem create_eco_forecast_ok_iff (now : Int) (project_id : String)
    (vios : List (String × List Rat)) (interval : Int) (h : interval ≠ 0) :
    create_eco_forecast now project_id vios interval
        = .ok ⟨⟨project_id, interval, now⟩, ⟨vios, []⟩⟩ ↔
      ∀ p ∈ vios, Int.fdiv 86400 interval ≤ (p.2.length : Int) := by
  rw [← validate_channels_ok_iff]
  simp only [create_eco_forecast, if_neg h]
  cases hv : validate_channels (Int.fdiv 86400 interval) vios with
  | ok u => cases u; simp
  | error e => simp [hv]

/-- For a nonzero interval, `create_eco_forecast` raises a ValueError
exactly when some channel is below the minimum length
`86400 // interval`. -/
theorem create_eco_forecast_error_iff (now : Int) (project_id : String)
    (vios : List (String × List Rat)) (interval : Int) (h : interval ≠ 0) :
    (∃ msg, create_eco_forecast now project_id vios interval
        = .error (.valueError msg)) ↔
      ∃ p ∈ vios, (p.2.length : Int) < Int.fdiv 86400 interval := by
  rw [← validate_channels_error_iff]
  simp only [create_eco_forecast, if_neg h]
  cases hv : validate_channels (Int.fdiv 86400 interval) vios with
  | ok u => cases u; simp
  | error e => simp [hv]

/-- With a cached token record present, `_ensure_valid_token` returns its
access token, leaves the state unchanged and makes no identity call. -/
theorem ensure_valid_token_cached (env : Env) (td : TokenRecord) :
    ensure_valid_token env ⟨some td⟩ = (.ok td.access_token, ⟨some td⟩, 0) := rfl

/-- C1 (amended): for every project id, nonzero interval and channel
mapping, `create_eco_forecast` fails with a validation error if and only
if some channel's value sequence has length below `86400 // interval`
(Python floor division); when it succeeds, every value sequence in the
returned forecast's `timeseries.y` has length at least
`86400 // interval`. -/
theorem C1_theorem (now : Int) (project_id : String)
    (vios : List (String × List Rat)) (interval : Int) (h : interval ≠ 0) :
    ((∃ msg, create_eco_forecast now project_id vios interval
        = .error (.valueError msg)) ↔
      ∃ p ∈ vios, (p.2.length : Int) < Int.fdiv 86400 interval)
    ∧ ∀ f, create_eco_forecast now project_id vios interval = .ok f →
        ∀ p ∈ f.timeseries.y, Int.fdiv 86400 interval ≤ (p.2.length : Int) := by
  constructor
  · exact create_eco_forecast_error_iff now project_id vios interval h
  · intro f hf
    have : validate_channels (Int.fdiv 86400 interval) vios = .ok ()
        ∧ f = ⟨⟨project_id, interval, now⟩, ⟨vios, []⟩⟩ := by
      simp only [create_eco_forecast, if_neg h] at hf
      cases hv : validate_channels (Int.fdiv 86400 interval) vios with
      | ok u => cases u; rw [hv] at hf; exact ⟨rfl, by injection hf; simp_all⟩
      | error e => rw [hv] at hf; cases hf
    obtain ⟨hok, rfl⟩ := this
    intro p hp
    exact (validate_channels_ok_iff _ _).mp hok p hp

/-- Witness for C1: at interval 300 a single 287-value channel makes
`create_eco_forecast` raise a ValueError. -/
theorem C1_witness :
    (∃ msg, create_eco_forecast 0 "p" [("a", List.replicate 287 (0:Rat))] 300
        = .error (.valueError msg)) := by
  refine ((C1_theorem 0 "p" [("a", List.replicate 287 (0:Rat))] 300 (by decide)).1).mpr ?_
  refine ⟨("a", List.replicate 287 (0:Rat)), List.mem_singleton.mpr rfl, ?_⟩
  simp only [List.length_replicate]
  decide

/-- Counterexample to C1 as stated: at interval 7 the code's minimum is
the floor 86400 // 7 = 12342, not the ceiling 12343, so a 12342-value
channel succeeds even though its length is below ceil(86400 / 7). -/
theorem C1_counterexample :
    (∃ f, create_eco_forecast 0 "p" [("a", List.replicate 12342 (0:Rat))] 7 = .ok f)
    ∧ ((List.replicate 12342 (0:Rat)).length : Int) < ⌈(86400 : ℚ) / 7⌉ := by
  constructor
  · refine ⟨⟨⟨"p", 7, 0⟩, ⟨[("a", List.replicate 12342 (0:Rat))], []⟩⟩, ?_⟩
    have h7 : Int.fdiv 86400 7 = 12342 := by decide
    rw [create_eco_forecast_ok_iff 0 "p" _ 7 (by decide)]
    intro p hp
    rcases List.mem_singleton.mp hp with rfl
    simp only [List.length_replicate, h7]
    omega
  · have hc : ⌈(86400 : ℚ) / 7⌉ = 12343 := by
      rw [Int.ceil_eq_iff]
      norm_num
    simp only [List.length_replicate, hc]
    omega

/-- C2: the code contradicts the claim.  With a cached record whose
expiry (0) is in the past (now = 100), `_ensure_valid_token` returns the
stale access token, leaves the cache unchanged and makes no call to the
identity endpoint, instead of fetching a fresh token. -/
theorem C2_code_bug :
    ensure_valid_token ⟨100, ⟨200, "fresh", some 3600⟩⟩ ⟨some ⟨"stale", 0⟩⟩
      = (.ok "stale", ⟨some ⟨"stale", 0⟩⟩, 0)
    ∧ (0 : Int) < 100 :=
  ⟨rfl, by decide⟩

/-- C3: with interval 300 a 287-value channel raises a validation error
and channels of 288 or more values all succeed, returning the forecast
built from the arguments. -/
theorem C3_theorem :
    (∀ (now : Int) (project_id : String) (vs : List Rat), vs.length = 287 →
      ∃ msg, create_eco_forecast now project_id [("ch", vs)] 300
        = .error (.valueError msg))
    ∧ ∀ (now : Int) (project_id : String) (vios : List (String × List Rat)),
        (∀ p ∈ vios, 288 ≤ p.2.length) →
        create_eco_forecast now project_id vios 300
          = .ok ⟨⟨project_id, 300, now⟩, ⟨vios, []⟩⟩ := by
  have h300 : Int.fdiv 86400 300 = 288 := by decide
  constructor
  · intro now project_id vs hlen
    refine (create_eco_forecast_error_iff now project_id [("ch", vs)] 300
      (by decide)).mpr ?_
    refine ⟨("ch", vs), List.mem_singleton.mpr rfl, ?_⟩
    simp only [hlen, h300]
    decide
  · intro now project_id vios hall
    rw [create_eco_forecast_ok_iff now project_id vios 300 (by decide)]
    intro p hp
    rw [h300]
    exact_mod_cast hall p hp

/-- Witness for C3: a concrete 287-value channel fails and a concrete
288-value channel succeeds at interval 300. -/
theorem C3_witness :
    (∃ msg, create_eco_forecast 5 "proj" [("ch", List.replicate 287 (0:Rat))] 300
        = .error (.valueError msg))
    ∧ create_eco_forecast 5 "proj" [("ch", List.replicate 288 (1:Rat))] 300
        = .ok ⟨⟨"proj", 300, 5⟩, ⟨[("ch", List.replicate 288 (1:Rat))], []⟩⟩ := by
  constructor
  · exact C3_theorem.1 5 "proj" _ (List.length_replicate 287 0)
  · refine C3_theorem.2 5 "proj" _ ?_
    intro p hp
    rcases List.mem_singleton.mp hp with rfl
    simp only [List.length_replicate]
    decide

/-- C4: with a cached non-expired token record, `_ensure_valid_token` —
and hence `put_forecast`, `get_twin_status` and `get_all_twins_status` —
makes no network call to the identity endpoint and leaves the Token
Manager's stored token unchanged. -/
theorem C4_theorem (env : Env) (td : TokenRecord)
    (h : env.now ≤ td.expires_at)
    (eco_twin_id : String) (fc : Forecast) (check : Bool) (resp : ApiResponse) :
    ensure_valid_token env ⟨some td⟩ = (.ok td.access_token, ⟨some td⟩, 0)
    ∧ (put_forecast env ⟨some td⟩ eco_twin_id fc check resp).identityCalls = 0
    ∧ (put_forecast env ⟨some td⟩ eco_twin_id fc check resp).state = ⟨some td⟩
    ∧ (get_twin_status env ⟨some td⟩ eco_twin_id resp).identityCalls = 0
    ∧ (get_twin_status env ⟨some td⟩ eco_twin_id resp).state = ⟨some td⟩
    ∧ (get_all_twins_status env ⟨some td⟩ resp).identityCalls = 0
    ∧ (get_all_twins_status env ⟨some td⟩ resp).state = ⟨some td⟩ := by
  refine ⟨rfl, ?_⟩
  simp only [put_forecast, get_twin_status, get_all_twins_status,
    ensure_valid_token_cached]
  by_cases hr : 400 ≤ resp.status ∧ resp.status < 600 <;>
    simp [raise_for_status, hr]

/-- Witness for C4: a concrete cached token valid until 200 at time 100
is reused without any identity call. -/
theorem C4_witness :
    ensure_valid_token ⟨100, ⟨200, "x", some 10⟩⟩ ⟨some ⟨"tok", 200⟩⟩
      = (.ok "tok", ⟨some ⟨"tok", 200⟩⟩, 0)
    ∧ (put_forecast ⟨100, ⟨200, "x", some 10⟩⟩ ⟨some ⟨"tok", 200⟩⟩ "tw"
        ⟨⟨"p", 300, 0⟩, ⟨[], []⟩⟩ true ⟨200, "b"⟩).identityCalls = 0 := by
  have h := C4_theorem ⟨100, ⟨200, "x", some 10⟩⟩ ⟨"tok", 200⟩ (by decide)
    "tw" ⟨⟨"p", 300, 0⟩, ⟨[], []⟩⟩ true ⟨200, "b"⟩
  exact ⟨h.1, h.2.1⟩

/-- C5: on a 2xx identity response carrying an expires_in value, token
acquisition from an empty cache stores a record whose expiry is the
current time plus expires_in and returns that record's access token,
after exactly one identity call. -/
theorem C5_theorem (env : Env) (e : Int)
    (h1 : env.identityResponse.expires_in = some e)
    (h2 : 200 ≤ env.identityResponse.status)
    (h3 : env.identityResponse.status < 300) :
    get_access_token env ⟨none⟩ =
      (.ok env.identityResponse.access_token,
       ⟨some ⟨env.identityResponse.access_token, env.now + e⟩⟩, 1) := by
  have hr : ¬(400 ≤ env.identityResponse.status ∧ env.identityResponse.status < 600) := by
    omega
  simp [get_access_token, raise_for_status, hr, h1]

/-- Witness for C5: at time 1000 with expires_in 3600 the stored record
expires at 4600. -/
theorem C5_witness :
    get_access_token ⟨1000, ⟨200, "tok", some 3600⟩⟩ ⟨none⟩
      = (.ok "tok", ⟨some ⟨"tok", 4600⟩⟩, 1) :=
  C5_theorem ⟨1000, ⟨200, "tok", some 3600⟩⟩ 3600 rfl (by decide) (by decide)

/-- C6: whenever token acquisition yields a token, `put_forecast` issues
exactly one PUT, to the twin's forecast URL with the query flag appended
exactly when check is true, carrying the Bearer authorization built from
that token. -/
theorem C6_theorem (env : Env) (s : ClientState) (eco_twin_id : String)
    (fc : Forecast) (check : Bool) (resp : ApiResponse)
    (tok : String) (s2 : ClientState) (n : Nat)
    (h : ensure_valid_token env s = (.ok tok, s2, n)) :
    (put_forecast env s eco_twin_id fc check resp).apiRequests =
      [⟨"PUT",
        if check then
          "https://energyoptimizer.azure-api.net/eco/v2/twins/" ++ eco_twin_id
            ++ "/forecast/external" ++ "?check"
        else
          "https://energyoptimizer.azure-api.net/eco/v2/twins/" ++ eco_twin_id
            ++ "/forecast/external",
        some ("Bearer " ++ tok), some "application/json"⟩] := by
  simp only [put_forecast, h]
  by_cases hr : 400 ≤ resp.status ∧ resp.status < 600 <;>
    simp [raise_for_status, hr]

/-- Witness for C6: with a cached token, a check=true PUT goes to the
forecast URL with the query flag and the Bearer header. -/
theorem C6_witness :
    (put_forecast ⟨0, ⟨200, "t", some 1⟩⟩ ⟨some ⟨"tok", 50⟩⟩ "tw"
        ⟨⟨"p", 300, 0⟩, ⟨[], []⟩⟩ true ⟨200, "b"⟩).apiRequests =
      [⟨"PUT",
        if true then
          "https://energyoptimizer.azure-api.net/eco/v2/twins/" ++ "tw"
            ++ "/forecast/external" ++ "?check"
        else
          "https://energyoptimizer.azure-api.net/eco/v2/twins/" ++ "tw"
            ++ "/forecast/external",
        some ("Bearer " ++ "tok"), some "application/json"⟩] :=
  C6_theorem ⟨0, ⟨200, "t", some 1⟩⟩ ⟨some ⟨"tok", 50⟩⟩ "tw"
    ⟨⟨"p", 300, 0⟩, ⟨[], []⟩⟩ true ⟨200, "b"⟩ "tok" ⟨some ⟨"tok", 50⟩⟩ 0 rfl

/-- Counterexample to C7 as stated: a 304 response is not 2xx, yet
`raise_for_status` raises only on 4xx and 5xx, so `get_twin_status`
returns the body instead of raising. -/
theorem C7_counterexample :
    (get_twin_status ⟨0, ⟨200, "t", some 1⟩⟩ ⟨some ⟨"tok", 50⟩⟩ "tw"
        ⟨304, "cached"⟩).result = .ok "cached"
    ∧ ¬(200 ≤ 304 ∧ 304 < 300) :=
  ⟨rfl, by decide⟩

/-- C7 (amended): every HTTP operation raises exactly when the response
status is a 4xx or 5xx and issues exactly one request (no retry); on any
other status, in particular on 2xx, `get_twin_status` and
`get_all_twins_status` return the parsed JSON body, `put_forecast`
returns the response, and the token POST returns the access token. -/
theorem C7_theorem (env : Env) (td : TokenRecord) (eco_twin_id : String)
    (fc : Forecast) (check : Bool) (resp : ApiResponse) :
    ((put_forecast env ⟨some td⟩ eco_twin_id fc check resp).result =
      if 400 ≤ resp.status ∧ resp.status < 600 then
        .error (.httpError resp.status) else .ok resp)
    ∧ (put_forecast env ⟨some td⟩ eco_twin_id fc check resp).apiRequests.length = 1
    ∧ ((get_twin_status env ⟨some td⟩ eco_twin_id resp).result =
      if 400 ≤ resp.status ∧ resp.status < 600 then
        .error (.httpError resp.status) else .ok resp.jsonBody)
    ∧ (get_twin_status env ⟨some td⟩ eco_twin_id resp).apiRequests.length = 1
    ∧ ((get_all_twins_status env ⟨some td⟩ resp).result =
      if 400 ≤ resp.status ∧ resp.status < 600 then
        .error (.httpError resp.status) else .ok resp.jsonBody)
    ∧ (get_all_twins_status env ⟨some td⟩ resp).apiRequests.length = 1
    ∧ ((get_access_token env ⟨none⟩).1 =
      if 400 ≤ env.identityResponse.status ∧ env.identityResponse.status < 600 then
        .error (.httpError env.identityResponse.status)
      else .ok env.identityResponse.access_token)
    ∧ (get_access_token env ⟨none⟩).2.2 = 1 := by
  simp only [put_forecast, get_twin_status, get_all_twins_status,
    get_access_token, ensure_valid_token_cached]
  by_cases hr : 400 ≤ resp.status ∧ resp.status < 600 <;>
    by_cases hi : 400 ≤ env.identityResponse.status ∧ env.identityResponse.status < 600 <;>
    simp [raise_for_status, hr, hi]

/-- C8: every forecast `create_eco_forecast` returns is exactly the
header built from the given project id, interval and current time,
together with the given channel mapping as y and an empty n. -/
theorem C8_theorem (now : Int) (project_id : String)
    (vios : List (String × List Rat)) (interval : Int) (f : Forecast)
    (h : create_eco_forecast now project_id vios interval = .ok f) :
    f = ⟨⟨project_id, interval, now⟩, ⟨vios, []⟩⟩ := by
  by_cases hi : interval = 0
  · rw [hi] at h; simp [create_eco_forecast] at h
  · simp only [create_eco_forecast, if_neg hi] at h
    cases hv : validate_channels (Int.fdiv 86400 interval) vios with
    | ok u => cases u; rw [hv] at h; injection h with h2; exact h2.symm
    | error e => rw [hv] at h; cases h

/-- Witness for C8: the forecast returned for an empty mapping at time 7
is exactly the literal structure. -/
theorem C8_witness :
    (⟨⟨"p", 300, 7⟩, ⟨[], []⟩⟩ : Forecast) = ⟨⟨"p", 300, 7⟩, ⟨[], []⟩⟩ :=
  C8_theorem 7 "p" [] 300 _ rfl

/-- C9: the minimum-length computation divides by the interval with no
guard: interval 0 raises ZeroDivisionError rather than a validation
error, and for every negative interval the floor quotient is non-positive
so every channel mapping passes validation. -/
theorem C9_theorem :
    (∀ (now : Int) (project_id : String) (vios : List (String × List Rat)),
      create_eco_forecast now project_id vios 0 = .error .zeroDivisionError)
    ∧ ∀ (now : Int) (project_id : String) (vios : List (String × List Rat))
        (interval : Int), interval < 0 →
        Int.fdiv 86400 interval ≤ 0
        ∧ create_eco_forecast now project_id vios interval
            = .ok ⟨⟨project_id, interval, now⟩, ⟨vios, []⟩⟩ := by
  constructor
  · intro now project_id vios
    simp [create_eco_forecast]
  · intro now project_id vios interval hneg
    have hle : Int.fdiv 86400 interval ≤ 0 :=
      Int.fdiv_nonpos (by decide) (le_of_lt hneg)
    refine ⟨hle, ?_⟩
    rw [create_eco_forecast_ok_iff now project_id vios interval (by omega)]
    intro p hp
    exact le_trans hle (by positivity)

/-- Witness for C9: at interval -300 the floor quotient is non-positive
and even an empty channel passes validation. -/
theorem C9_witness :
    Int.fdiv 86400 (-300) ≤ 0
    ∧ create_eco_forecast 0 "p" [("a", [])] (-300)
        = .ok ⟨⟨"p", -300, 0⟩, ⟨[("a", [])], []⟩⟩ :=
  C9_theorem.2 0 "p" [("a", [])] (-300) (by decide)

/-- C10: for every positive interval, an empty channel mapping passes
validation vacuously and the returned forecast has empty y and n. -/
theorem C10_theorem (now : Int) (project_id : String) (interval : Int)
    (h : 1 ≤ interval) :
    create_eco_forecast now project_id [] interval
      = .ok ⟨⟨project_id, interval, now⟩, ⟨[], []⟩⟩ := by
  rw [create_eco_forecast_ok_iff now project_id [] interval (by omega)]
  intro p hp
  cases hp

/-- Witness for C10: the empty mapping at interval 300 succeeds with
empty timeseries. -/
theorem C10_witness :
    create_eco_forecast 42 "proj" [] 300 = .ok ⟨⟨"proj", 300, 42⟩, ⟨[], []⟩⟩ :=
  C10_theorem 42 "proj" 300 (by decide)

end EcoTwin
